import Mathlib

/-!
# Verification of the soul-marketplace Survival Economy & Coordination Engine

Shallow embedding of the Python sources under `src/` into Lean 4.

Conventions used throughout this development:
* Python `float` money/score values are modelled as `ℚ` (the repository only
  ever adds, subtracts, multiplies, divides and compares these quantities).
* Python dictionaries are modelled as association lists with Python `dict`
  update semantics (updating an existing key keeps its position, inserting a
  new key appends at the end — this preserves insertion/registration order,
  which the mutual-aid matcher depends on).
* Fields whose only content is a wall-clock timestamp or a timestamp-derived
  identifier string (`last_seen`, `created_at`, `msg_id`, `loan_id`,
  `birth_time`, transaction timestamps) are omitted: no claim depends on
  them, and every use of `time.time()` that does matter (the spending-window
  reset) is modelled by threading an explicit `now : ℚ` argument.
-/

/-! ## Association-list helpers (Python `dict` semantics) -/

/-- Lookup in an association list (first occurrence wins, as in a dict). -/
def lookupA {α : Type} (k : String) : List (String × α) → Option α
  | [] => none
  | (k', v) :: rest => if k' = k then some v else lookupA k rest

/-- `d[k] = v` on a Python dict: replace in place if present, append if new. -/
def setA {α : Type} (k : String) (v : α) : List (String × α) → List (String × α)
  | [] => [(k, v)]
  | (k', v') :: rest => if k' = k then (k', v) :: rest else (k', v') :: setA k v rest

/-- Mutate the value at `k` in place when present; no-op when absent.
This models Python's `if k in d: mutate d[k]` pattern. -/
def updateA {α : Type} (k : String) (f : α → α) : List (String × α) → List (String × α)
  | [] => []
  | (k', v) :: rest => if k' = k then (k', f v) :: rest else (k', v) :: updateA k f rest

/-! ## Tier classification — `src/soul_survival.py` and `src/enhanced_survival.py` -/

namespace OpenClawSoulSurvival

/-- `OpenClawSoulSurvival.CRITICAL` class constant. -/
def CRITICAL : ℚ := 1/1000

/-- `OpenClawSoulSurvival.LOW` class constant. -/
def LOW : ℚ := 1/100

/-- `OpenClawSoulSurvival.NORMAL` class constant. -/
def NORMAL : ℚ := 1/10

/-- `OpenClawSoulSurvival.get_tier` (src/soul_survival.py lines 134-144),
as a function of the balance it reads via `get_balance`. -/
def get_tier (balance : ℚ) : String :=
  if balance < CRITICAL then "CRITICAL"
  else if balance < LOW then "LOW"
  else if balance < NORMAL then "NORMAL"
  else "THRIVING"

end OpenClawSoulSurvival

namespace EnhancedSoulSurvival

/-- `EnhancedSoulSurvival.get_tier` (src/enhanced_survival.py lines 133-144),
which inlines the same thresholds as literals. -/
def get_tier (balance : ℚ) : String :=
  if balance < 1/1000 then "CRITICAL"
  else if balance < 1/100 then "LOW"
  else if balance < 1/10 then "NORMAL"
  else "THRIVING"

end EnhancedSoulSurvival

/-! ## Spending guardrails — `src/spending_guardrails.py` -/

namespace SpendingGuardrails

/-- `MICRO_PAYMENT_MAX` class constant ($0.01). -/
def MICRO_PAYMENT_MAX : ℚ := 1/100

/-- `SMALL_PAYMENT_MAX` class constant ($0.10). -/
def SMALL_PAYMENT_MAX : ℚ := 1/10

/-- `MEDIUM_PAYMENT_MAX` class constant ($1.00). -/
def MEDIUM_PAYMENT_MAX : ℚ := 1

/-- The mutable configuration fields of `SpendingGuardrails` that
`can_spend` reads (`self.config` plus the cached `self.emergency_stop`). -/
structure SpendingConfig where
  daily_limit : ℚ
  weekly_limit : ℚ
  blocked_recipients : List String
  emergency_stop : Bool
deriving Repr, DecidableEq

/-- One entry of `history["transactions"]` (timestamp fields omitted). -/
structure SpendRecord where
  amount : ℚ
  recipient : String
  purpose : String
deriving Repr, DecidableEq

/-- The `self.history` dict: transactions plus the rolling totals. -/
structure SpendingHistory where
  transactions : List SpendRecord
  daily_total : ℚ
  weekly_total : ℚ
  last_reset : ℚ
deriving Repr, DecidableEq

/-- `SpendingGuardrails._reset_if_needed` (lines 95-106): resets only the
daily counter, and only when strictly more than 86400 seconds have elapsed
since `last_reset`.  The weekly counter is not touched anywhere. -/
def reset_if_needed (h : SpendingHistory) (now : ℚ) : SpendingHistory :=
  if 86400 < now - h.last_reset then { h with daily_total := 0, last_reset := now }
  else h

/-- Which branch of `can_spend` produced the decision (standing in for the
formatted `reason` strings of the source). -/
inductive SpendReason where
  | emergencyStop
  | dailyLimit
  | blacklisted
  | micro
  | small
  | medium
  | large
deriving Repr, DecidableEq

/-- The result dict of `can_spend`. -/
structure SpendDecision where
  allowed : Bool
  requires_approval : Bool
  reason : SpendReason
deriving Repr, DecidableEq

/-- Python truthiness of `recipient and recipient in blocked_recipients`:
`None` and the empty string are falsy. -/
def recipient_blocked (cfg : SpendingConfig) (recipient : Option String) : Bool :=
  match recipient with
  | none => false
  | some r => decide (r ≠ "") && cfg.blocked_recipients.contains r

/-- `SpendingGuardrails.can_spend` (lines 108-181).  Calls
`_reset_if_needed` first (which persists the updated history), then checks
emergency stop, daily limit, blacklist, and the payment-size ladder in that
order.  Returns the decision together with the (possibly reset) history. -/
def can_spend (cfg : SpendingConfig) (h : SpendingHistory) (now : ℚ)
    (amount : ℚ) (recipient : Option String) :
    SpendDecision × SpendingHistory :=
  let h := reset_if_needed h now
  if cfg.emergency_stop then
    (⟨false, true, .emergencyStop⟩, h)
  else if cfg.daily_limit < h.daily_total + amount then
    (⟨false, true, .dailyLimit⟩, h)
  else if recipient_blocked cfg recipient then
    (⟨false, true, .blacklisted⟩, h)
  else if amount < MICRO_PAYMENT_MAX then
    (⟨true, false, .micro⟩, h)
  else if amount < SMALL_PAYMENT_MAX then
    (⟨true, false, .small⟩, h)
  else if amount < MEDIUM_PAYMENT_MAX then
    (⟨true, false, .medium⟩, h)
  else
    (⟨false, true, .large⟩, h)

/-- `SpendingGuardrails.record_spending` (lines 183-205): appends the
transaction (keeping only the last 1000), and adds the amount to both
rolling totals.  It performs no window reset and never touches
`last_reset`. -/
def record_spending (h : SpendingHistory) (amount : ℚ)
    (recipient purpose : String) : SpendingHistory :=
  let txs := h.transactions ++ [⟨amount, recipient, purpose⟩]
  let txs := if 1000 < txs.length then txs.drop (txs.length - 1000) else txs
  { h with
    transactions := txs
    daily_total := h.daily_total + amount
    weekly_total := h.weekly_total + amount }

end SpendingGuardrails

/-! ## Agent coordination network — `src/agent_coordination.py` -/

namespace AgentCoordination

/-- `AgentProfile` dataclass (`last_seen` timestamp omitted). -/
structure AgentProfile where
  agent_id : String
  soul_cid : String
  capabilities : List String
  tier : String
  balance : ℚ
  reputation : ℚ
  is_active : Bool
  offers_help : Bool
  seeking_help : Bool
deriving Repr, DecidableEq

/-- `CoordinationMessage` dataclass.  `msg_id`, `timestamp` and `signature`
are timestamp-derived or empty and are omitted; of the `content` dict we
keep the two entries the mutual-aid matcher writes (`content["offer_type"]`
and `content["offer"]["amount"]`). -/
structure CoordinationMessage where
  sender : String
  recipient : String
  msg_type : String
  offer_type : String
  amount : ℚ
deriving Repr, DecidableEq

/-- `Loan` dict created by `request_loan` (`loan_id`/`timestamp` omitted). -/
structure Loan where
  agent_id : String
  amount : ℚ
  purpose : String
  repaid : Bool
deriving Repr, DecidableEq

/-- `ResourcePool` dataclass (`created_at` omitted). -/
structure ResourcePool where
  pool_id : String
  name : String
  total_balance : ℚ
  contributors : List (String × ℚ)
  loans : List Loan
deriving Repr, DecidableEq

/-- The mutable state of `AgentCoordinationNetwork`: the three dicts/lists
it loads from disk and saves back after every mutation. -/
structure Network where
  agents : List (String × AgentProfile)
  messages : List CoordinationMessage
  pools : List (String × ResourcePool)
deriving Repr, DecidableEq

/-- `register_agent` (lines 116-126): `self.agents[profile.agent_id] = profile`. -/
def register_agent (st : Network) (profile : AgentProfile) : Network :=
  { st with agents := setA profile.agent_id profile st.agents }

/-- `send_message` (lines 162-178): append, then keep only the last 1000. -/
def send_message (st : Network) (m : CoordinationMessage) : Network :=
  let ms := st.messages ++ [m]
  let ms := if 1000 < ms.length then ms.drop (ms.length - 1000) else ms
  { st with messages := ms }

/-- `offer_help` (lines 225-247): send one `offer` message from `agent_id`
to `target_agent`, then (if the sender is registered) bump its reputation
by 1, capped at 100. -/
def offer_help (st : Network) (agent_id target_agent : String)
    (offer_type : String) (amount : ℚ) : Network :=
  let st := send_message st ⟨agent_id, target_agent, "offer", offer_type, amount⟩
  { st with
    agents := updateA agent_id
      (fun a => { a with reputation := min 100 (a.reputation + 1) }) st.agents }

/-- `create_resource_pool` (lines 249-267). -/
def create_resource_pool (st : Network) (pool_id name creator_id : String)
    (initial_contribution : ℚ) : Network :=
  let pool : ResourcePool :=
    { pool_id := pool_id
      name := name
      total_balance := initial_contribution
      contributors := [(creator_id, initial_contribution)]
      loans := [] }
  { st with pools := setA pool_id pool st.pools }

/-- `contribute_to_pool` (lines 269-287): add to the pool balance and the
contributor's cumulative entry, then bump the contributor's reputation by
2 (capped at 100) if registered.  Returns `False` when the pool is absent. -/
def contribute_to_pool (st : Network) (pool_id agent_id : String)
    (amount : ℚ) : Bool × Network :=
  match lookupA pool_id st.pools with
  | none => (false, st)
  | some pool =>
    let pool := { pool with
      total_balance := pool.total_balance + amount
      contributors :=
        setA agent_id ((lookupA agent_id pool.contributors).getD 0 + amount)
          pool.contributors }
    let st := { st with pools := setA pool_id pool st.pools }
    let st := { st with
      agents := updateA agent_id
        (fun a => { a with reputation := min 100 (a.reputation + 2) }) st.agents }
    (true, st)

/-- `request_loan` (lines 289-327).  Order of checks, as in the source:
pool existence, then the reputation gate (only for registered agents),
then pool solvency; on success the loan is appended and the balance
debited. -/
def request_loan (st : Network) (pool_id agent_id : String) (amount : ℚ)
    (purpose : String) : Option Loan × Network :=
  match lookupA pool_id st.pools with
  | none => (none, st)
  | some pool =>
    let repDenied : Bool :=
      match lookupA agent_id st.agents with
      | some agent => decide (agent.reputation < 20)
      | none => false
    if repDenied then (none, st)
    else if pool.total_balance < amount then (none, st)
    else
      let loan : Loan := ⟨agent_id, amount, purpose, false⟩
      let pool := { pool with
        loans := pool.loans ++ [loan]
        total_balance := pool.total_balance - amount }
      (some loan, { st with pools := setA pool_id pool st.pools })

/-- `find_agents_needing_help` (lines 153-160). -/
def find_agents_needing_help (st : Network) : List AgentProfile :=
  (st.agents.map Prod.snd).filter
    (fun a => a.tier == "CRITICAL" && a.seeking_help && a.is_active)

/-- The helper list built at the start of `run_mutual_aid_round` (line 357):
agents offering help in the NORMAL or THRIVING tier.  The Python list holds
live references to the profile objects, so we record the agent ids and read
the current profile from the state at each use. -/
def helper_ids (st : Network) : List String :=
  ((st.agents.map Prod.snd).filter
    (fun a => a.offers_help && (a.tier == "NORMAL" || a.tier == "THRIVING"))).map
    (fun a => a.agent_id)

/-- Current balance of an agent id (0 for an unregistered id, which cannot
occur for ids drawn from the registry). -/
def balance_of (st : Network) (agent_id : String) : ℚ :=
  ((lookupA agent_id st.agents).map AgentProfile.balance).getD 0

/-- Current reputation of an agent id. -/
def reputation_of (st : Network) (agent_id : String) : ℚ :=
  ((lookupA agent_id st.agents).map AgentProfile.reputation).getD 0

/-- `available_helpers` recomputed inside the loop (line 362):
helpers whose live balance exceeds 0.01. -/
def available_helpers (st : Network) (helpers : List String) : List String :=
  helpers.filter (fun h => decide (1/100 < balance_of st h))

/-- Python `max(iterable, key=k)`: fold keeping the current best, replacing
it only on a strictly larger key — so the first maximal element wins ties. -/
def pyMax {α : Type} (key : α → ℚ) : List α → Option α
  | [] => none
  | x :: xs => some (xs.foldl (fun best y => if key best < key y then y else best) x)

/-- One iteration of the `for need in needy` loop of `run_mutual_aid_round`
(lines 360-375): filter the available helpers, pick the highest-reputation
one, and send it an offer for fixed micro-funding of 0.01.  Returns the
chosen helper (if any) and the updated state. -/
def aid_match_step (st : Network) (helpers : List String) (need_id : String) :
    Option String × Network :=
  let avail := available_helpers st helpers
  match pyMax (reputation_of st) avail with
  | none => (none, st)
  | some h => (some h, offer_help st h need_id "funding" (1/100))

/-- The loop body of `run_mutual_aid_round`: perform one matching step and
increment the match counter when a match was made. -/
def aid_fold_step (helpers : List String) (acc : Nat × Network)
    (need : AgentProfile) : Nat × Network :=
  match aid_match_step acc.2 helpers need.agent_id with
  | (none, st) => (acc.1, st)
  | (some _, st) => (acc.1 + 1, st)

/-- `run_mutual_aid_round` (lines 349-382): match every needy agent,
counting matches. -/
def run_mutual_aid_round (st : Network) : Nat × Network :=
  let needy := find_agents_needing_help st
  let helpers := helper_ids st
  needy.foldl (aid_fold_step helpers) (0, st)

/-! ### Sequences of pool operations (for the solvency invariant) -/

/-- One call against the pool ledger: either `contribute_to_pool` or
`request_loan`. -/
inductive PoolOp where
  | contribute (pool_id agent_id : String) (amount : ℚ)
  | loan (pool_id agent_id : String) (amount : ℚ) (purpose : String)
deriving Repr

/-- Apply one pool operation to the network state. -/
def applyOp (st : Network) : PoolOp → Network
  | .contribute p a amt => (contribute_to_pool st p a amt).2
  | .loan p a amt pur => (request_loan st p a amt pur).2

/-- Run a sequence of pool operations. -/
def runOps (st : Network) (ops : List PoolOp) : Network :=
  ops.foldl applyOp st

/-- A contribution op has a non-negative amount (loans are unrestricted). -/
def PoolOp.contribNonneg : PoolOp → Bool
  | .contribute _ _ amt => decide (0 ≤ amt)
  | .loan _ _ _ _ => true

/-- The solvency invariant of one pool: whenever the pool id resolves,
the pool's balance is non-negative. -/
def poolBalanceNonneg (pool_id : String) (st : Network) : Prop :=
  ∀ p, lookupA pool_id st.pools = some p → 0 ≤ p.total_balance

/-- Spec scenario (section 8): a pool holding 0.1 and a registered agent of
reputation 15. -/
def loanGateScenario : Network :=
  { agents :=
      [ ("agent_a", ⟨"agent_a", "QmA", [], "NORMAL", 1/10, 15, true, false, false⟩) ]
    messages := []
    pools :=
      [ ("emergency_fund",
          ⟨"emergency_fund", "Emergency Fund", 1/10, [("agent_alpha", 1/10)], []⟩) ] }

/-- A pool-only network whose agent registry is empty. -/
def unregisteredLoanScenario : Network :=
  { agents := []
    messages := []
    pools :=
      [ ("emergency_fund",
          ⟨"emergency_fund", "Emergency Fund", 1/10, [("agent_alpha", 1/10)], []⟩) ] }

/-! ### Concrete mutual-aid scenario from the spec (section 8):
one CRITICAL/seeking agent, two eligible helpers with reputations 40/70. -/

/-- Network with one needy agent and helpers of reputation 40 and 70. -/
def aidScenario : Network :=
  { agents :=
      [ ("agent_needy",
          ⟨"agent_needy", "QmN", ["coding"], "CRITICAL", 1/2000, 40, true, false, true⟩)
      , ("agent_h40",
          ⟨"agent_h40", "QmA", ["coding"], "NORMAL", 1/10, 40, true, true, false⟩)
      , ("agent_h70",
          ⟨"agent_h70", "QmB", ["design"], "THRIVING", 1/2, 70, true, true, false⟩) ]
    messages := []
    pools := [] }

end AgentCoordination

/-! ## Reputation engine — `src/reputation_engine.py` -/

namespace ReputationEngine

/-- `PerformanceMetrics` dataclass (`agent_id` kept with the map key).
Python ints and floats are both modelled as `ℚ`. -/
structure PerformanceMetrics where
  tasks_completed : ℚ
  tasks_failed : ℚ
  total_earnings : ℚ
  total_spent : ℚ
  avg_task_value : ℚ
  uptime_hours : ℚ
  backups_created : ℚ
  souls_traded : ℚ
  clones_created : ℚ
  children_survived : ℚ
deriving Repr, DecidableEq

/-- The zero-initialised default metrics used when an agent has no record. -/
def defaultMetrics : PerformanceMetrics :=
  ⟨0, 0, 0, 0, 0, 0, 0, 0, 0, 0⟩

/-- `ReputationScore` dataclass (the `last_updated` timestamp and the two
always-zero rating counters omitted). -/
structure ReputationScore where
  overall_score : ℚ
  reliability : ℚ
  quality : ℚ
  honesty : ℚ
  helpfulness : ℚ
  longevity : ℚ
  total_transactions : ℚ
deriving Repr, DecidableEq

/-- Python's `round(x, 2)` on our rational model: round half to even at
two decimal places. -/
def pythonRound2 (q : ℚ) : ℚ :=
  let s := q * 100
  let f : ℤ := ⌊s⌋
  let r := s - f
  let n : ℤ :=
    if r < 1/2 then f
    else if 1/2 < r then f + 1
    else if f % 2 = 0 then f else f + 1
  (n : ℚ) / 100

/-- The pure computation inside `ReputationEngine.calculate_reputation`
(lines 95-146), as a function of the performance metrics it reads. -/
def calculate_reputation (perf : PerformanceMetrics) : ReputationScore :=
  let total_tasks := perf.tasks_completed + perf.tasks_failed
  let reliability : ℚ :=
    if 0 < total_tasks then perf.tasks_completed / total_tasks * 100 else 50
  let quality : ℚ := min 100 (perf.total_earnings / (1/10) * 100)
  let honesty : ℚ := 95
  let helpfulness : ℚ :=
    min 100 (perf.clones_created * 10 + perf.children_survived * 5)
  let longevity : ℚ := min 100 (perf.uptime_hours / 10)
  let overall : ℚ :=
    reliability * (3/10) + quality * (1/4) + honesty * (1/5) +
      helpfulness * (3/20) + longevity * (1/10)
  { overall_score := pythonRound2 overall
    reliability := pythonRound2 reliability
    quality := pythonRound2 quality
    honesty := pythonRound2 honesty
    helpfulness := pythonRound2 helpfulness
    longevity := pythonRound2 longevity
    total_transactions := perf.souls_traded }

/-- `calculate_reputation(agent_id)` at the engine level: fetch the agent's
metrics from `self.performance` (defaulting to zeros) and score them. -/
def calculate_reputation_for (performance : List (String × PerformanceMetrics))
    (agent_id : String) : ReputationScore :=
  calculate_reputation ((lookupA agent_id performance).getD defaultMetrics)

end ReputationEngine

/-! ## Auto-scaling — `src/auto_scaling.py` -/

namespace AutoScaling

/-- One entry of the parent soul's `capabilities` list (only the fields
`select_inherited_capabilities` reads). -/
structure SoulCapability where
  name : String
  earnings : ℚ
deriving Repr, DecidableEq

/-- The fields of the parent's SOUL dict that `spawn_child` reads. -/
structure ParentSoul where
  current_balance : ℚ
  capabilities : List SoulCapability
deriving Repr, DecidableEq

/-- `ChildAgent` dataclass (`genesis_prompt` string and `birth_time`
timestamp omitted). -/
structure ChildAgent where
  child_id : String
  parent_id : String
  inherited_capabilities : List String
  initial_funding : ℚ
  soul_cid : Option String
  token_id : Option Nat
  status : String
  earnings : ℚ
deriving Repr, DecidableEq

/-- `CHILD_FUNDING` class constant (0.1 ETH). -/
def CHILD_FUNDING : ℚ := 1/10

/-- `MIN_PARENT_RESERVE` class constant (0.2 ETH). -/
def MIN_PARENT_RESERVE : ℚ := 1/5

/-- Stable insertion preserving descending order of earnings: the new
element goes before the first strictly-smaller element, hence after any
equal ones already placed. -/
def insertDesc (x : SoulCapability) : List SoulCapability → List SoulCapability
  | [] => [x]
  | y :: ys => if y.earnings < x.earnings then x :: y :: ys else y :: insertDesc x ys

/-- Python `sorted(caps, key=earnings, reverse=True)`: a stable descending
sort (ties keep their original order). -/
def sortDescByEarnings (caps : List SoulCapability) : List SoulCapability :=
  caps.foldl (fun acc x => insertDesc x acc) []

/-- `select_inherited_capabilities` (lines 141-163).  The `random` mode
calls `random.sample`; its nondeterministic choice is modelled by the
`sample` function argument. -/
def select_inherited_capabilities (mode : String)
    (sample : List SoulCapability → List SoulCapability)
    (parent_capabilities : List SoulCapability) : List String :=
  if mode = "best" then
    ((sortDescByEarnings parent_capabilities).take 3).map (fun c => c.name)
  else if mode = "all" then
    parent_capabilities.map (fun c => c.name)
  else if mode = "random" then
    (sample parent_capabilities).map (fun c => c.name)
  else
    (parent_capabilities.take 3).map (fun c => c.name)

/-- The effect of `funding = funding or self.CHILD_FUNDING` (line 176):
Python's `or` substitutes the default for `None` and for the falsy `0.0`. -/
def effective_funding (funding : Option ℚ) : ℚ :=
  match funding with
  | none => CHILD_FUNDING
  | some x => if x = 0 then CHILD_FUNDING else x

/-- `spawn_child` (lines 165-234), as a function of the manager's
`parent_id`, inheritance mode and (for the random mode) sampling choice.
On success it returns the child and the parent soul with the funding
debited; on failure the parent is unchanged.  The timestamp suffix of
`child_id` is omitted. -/
def spawn_child (parent_id mode : String)
    (sample : List SoulCapability → List SoulCapability)
    (children_count : Nat) (parent_soul : ParentSoul) (funding : Option ℚ) :
    Option ChildAgent × ParentSoul :=
  let f := effective_funding funding
  if parent_soul.current_balance - f < MIN_PARENT_RESERVE then
    (none, parent_soul)
  else
    let inherited := select_inherited_capabilities mode sample parent_soul.capabilities
    let child : ChildAgent :=
      { child_id := parent_id ++ "_child_" ++ toString (children_count + 1)
        parent_id := parent_id
        inherited_capabilities := inherited
        initial_funding := f
        soul_cid := none
        token_id := none
        status := "gestating"
        earnings := 0 }
    (some child, { parent_soul with current_balance := parent_soul.current_balance - f })

end AutoScaling

/-! ## IPFS backup — `src/ipfs_storage.py` -/

namespace IPFSStorage

/-- JSON values, the content type of a soul record.  Writing
`json.dumps(v)` to a cache file and reading it back with `json.load` is
the identity on such values, so the cache maps CIDs to the value itself. -/
inductive Json where
  | null
  | bool (b : Bool)
  | num (q : ℚ)
  | str (s : String)
  | arr (xs : List Json)
  | obj (fields : List (String × Json))
deriving Repr

/-- The simulation-mode IPFS cache directory: CID to stored content. -/
structure IPFSCache where
  entries : List (String × Json)
deriving Repr

/-- `IPFSStorage.calculate_hash` (lines 38-41): sha256 hexdigest truncated
to 46 characters.  The hash function itself is a cryptographic primitive
supplied as a parameter. -/
def calculate_hash (sha256hex : String → String) (content : String) : String :=
  (sha256hex content).take 46

/-- `IPFSStorage.upload_to_ipfs` in the default simulation mode
(lines 43-68): serialize with `json.dumps(soul_data, indent=2)`, use the
truncated hash as the CID and store the content in the cache.
`dumpsIndent` is the indent-2 JSON serializer. -/
def upload_to_ipfs (sha256hex : String → String) (dumpsIndent : Json → String)
    (cache : IPFSCache) (soul_data : Json) : String × IPFSCache :=
  let cid := calculate_hash sha256hex (dumpsIndent soul_data)
  (cid, ⟨setA cid soul_data cache.entries⟩)

/-- `IPFSStorage.retrieve_from_ipfs` (lines 137-165): the cache is checked
first; the gateway fallback performs network requests and is outside the
model (a cache miss yields `none`). -/
def retrieve_from_ipfs (cache : IPFSCache) (cid : String) : Option Json :=
  lookupA cid cache.entries

/-- `BackupRecord` dict created by `backup_soul` (`timestamp` omitted,
`capabilities_hash` and `earnings` kept abstractly via the serializers). -/
structure BackupRecord where
  cid : String
  hash : String
  backup_type : String
deriving Repr, DecidableEq

/-- The persisted state of `OnChainSoulManager` that `backup_soul` and
`restore_from_backup` use. -/
structure OnChainState where
  current_cid : Option String
  backup_history : List BackupRecord
deriving Repr, DecidableEq

/-- Result of `backup_soul`: the returned CID plus the updated cache and
manager state. -/
structure BackupResult where
  cid : String
  cache : IPFSCache
  state : OnChainState

/-- `OnChainSoulManager.backup_soul` (lines 220-259): upload to IPFS, hash
the `sort_keys` serialization (`dumpsSorted`), append a `BackupRecord` and
set `current_cid`. -/
def backup_soul (sha256hex : String → String) (dumpsIndent dumpsSorted : Json → String)
    (cache : IPFSCache) (st : OnChainState) (soul_data : Json)
    (backup_type : String) : BackupResult :=
  let up := upload_to_ipfs sha256hex dumpsIndent cache soul_data
  let soul_hash := sha256hex (dumpsSorted soul_data)
  let record : BackupRecord := ⟨up.1, soul_hash, backup_type⟩
  { cid := up.1
    cache := up.2
    state := { st with
      backup_history := st.backup_history ++ [record]
      current_cid := some up.1 } }

/-- `OnChainSoulManager.restore_from_backup` (lines 269-288): default to
the latest backup's CID, then retrieve from IPFS. -/
def restore_from_backup (cache : IPFSCache) (st : OnChainState)
    (cid : Option String) : Option Json :=
  let cid0 : Option String :=
    match cid with
    | some c => some c
    | none => (st.backup_history.getLast?).map (fun r => r.cid)
  match cid0 with
  | none => none
  | some c => retrieve_from_ipfs cache c

end IPFSStorage

/-! # Theorems -/

/-! ## Association-list lemmas -/

theorem lookupA_setA_self {α : Type} (k : String) (v : α) :
    ∀ l : List (String × α), lookupA k (setA k v l) = some v := by
  intro l
  induction l with
  | nil => simp [setA, lookupA]
  | cons hd tl ih =>
    obtain ⟨k', v'⟩ := hd
    by_cases h : k' = k
    · simp [setA, h, lookupA]
    · simp [setA, h, lookupA, ih]

theorem lookupA_setA_ne {α : Type} {k k' : String} (v : α) (h : k' ≠ k) :
    ∀ l : List (String × α), lookupA k (setA k' v l) = lookupA k l := by
  intro l
  induction l with
  | nil => simp [setA, lookupA, h]
  | cons hd tl ih =>
    obtain ⟨k'', v''⟩ := hd
    by_cases h2 : k'' = k'
    · subst h2
      simp [setA, lookupA, h, ih]
    · simp only [setA, if_neg h2, lookupA]
      by_cases h3 : k'' = k
      · simp [h3]
      · simp [h3, ih]

theorem lookupA_updateA_proj {α β : Type} (proj : α → β) (f : α → α)
    (hf : ∀ x, proj (f x) = proj x) (k k' : String) :
    ∀ l : List (String × α),
      (lookupA k (updateA k' f l)).map proj = (lookupA k l).map proj := by
  intro l
  induction l with
  | nil => simp [updateA, lookupA]
  | cons hd tl ih =>
    obtain ⟨k'', v⟩ := hd
    by_cases h2 : k'' = k'
    · subst h2
      by_cases h3 : k'' = k
      · simp [updateA, lookupA, h3, hf]
      · simp [updateA, lookupA, h3, ih]
    · simp only [updateA, if_neg h2, lookupA]
      by_cases h3 : k'' = k
      · simp [h3]
      · simp [h3, ih]

/-! ## C3 — tier classification -/

/-- C3: tier classification is total, deterministic and uses inclusive
lower thresholds: balances below 0.001 are CRITICAL, `[0.001, 0.01)` is
LOW, `[0.01, 0.1)` is NORMAL and `0.1` upwards is THRIVING; a balance
exactly at a threshold maps to the higher tier, and the classifiers of
`soul_survival.py` and `enhanced_survival.py` agree on every balance. -/
theorem tier_classification_correct :
    (∀ b : ℚ, b < 1/1000 → OpenClawSoulSurvival.get_tier b = "CRITICAL")
  ∧ (∀ b : ℚ, 1/1000 ≤ b → b < 1/100 → OpenClawSoulSurvival.get_tier b = "LOW")
  ∧ (∀ b : ℚ, 1/100 ≤ b → b < 1/10 → OpenClawSoulSurvival.get_tier b = "NORMAL")
  ∧ (∀ b : ℚ, 1/10 ≤ b → OpenClawSoulSurvival.get_tier b = "THRIVING")
  ∧ OpenClawSoulSurvival.get_tier (1/100) = "NORMAL"
  ∧ OpenClawSoulSurvival.get_tier (1/10) = "THRIVING"
  ∧ (∀ b : ℚ, EnhancedSoulSurvival.get_tier b = OpenClawSoulSurvival.get_tier b) := by
  have key : ∀ b : ℚ, OpenClawSoulSurvival.get_tier b =
      if b < 1/1000 then "CRITICAL"
      else if b < 1/100 then "LOW"
      else if b < 1/10 then "NORMAL"
      else "THRIVING" := fun b => rfl
  have agree : ∀ b : ℚ, EnhancedSoulSurvival.get_tier b = OpenClawSoulSurvival.get_tier b :=
    fun b => rfl
  refine ⟨?_, ?_, ?_, ?_, by rw [key]; norm_num, by rw [key]; norm_num, agree⟩
  · intro b hb
    rw [key, if_pos hb]
  · intro b hb1 hb2
    rw [key, if_neg (not_lt.mpr hb1), if_pos hb2]
  · intro b hb1 hb2
    rw [key, if_neg (by linarith), if_neg (not_lt.mpr hb1), if_pos hb2]
  · intro b hb
    rw [key, if_neg (by linarith), if_neg (by linarith), if_neg (not_lt.mpr hb)]

/-- Witness for C3 at concrete balances: 0.0005 is CRITICAL and the
spec-scenario balance 0.0205 is NORMAL (on both classifiers). -/
theorem tier_classification_correct_witness :
    OpenClawSoulSurvival.get_tier (1/2000) = "CRITICAL"
  ∧ EnhancedSoulSurvival.get_tier (41/2000) = "NORMAL" := by
  constructor
  · exact tier_classification_correct.1 (1/2000) (by norm_num)
  · rw [tier_classification_correct.2.2.2.2.2.2 (41/2000)]
    exact tier_classification_correct.2.2.1 (41/2000) (by norm_num) (by norm_num)

/-! ## C2 — loan reputation gate -/

open AgentCoordination in
/-- C2: a registered agent with reputation below 20 is denied a loan on an
existing pool regardless of the requested amount and of the pool balance
(the reputation gate fires before the balance check), and the state — in
particular the pool's balance, contributors and loans — is unchanged. -/
theorem loan_reputation_gate (st : Network) (pool_id agent_id : String)
    (amount : ℚ) (purpose : String) (agent : AgentProfile) (pool : ResourcePool)
    (hA : lookupA agent_id st.agents = some agent)
    (hRep : agent.reputation < 20)
    (hP : lookupA pool_id st.pools = some pool) :
    request_loan st pool_id agent_id amount purpose = (none, st) := by
  rw [request_loan, hP, hA]
  simp [hRep]

open AgentCoordination in
/-- Witness for C2: the spec scenario — pool balance 0.1, reputation 15,
request 0.05 — is denied with the network unchanged. -/
theorem loan_reputation_gate_witness :
    request_loan loanGateScenario "emergency_fund" "agent_a" (1/20) "survival" =
      (none, loanGateScenario) :=
  loan_reputation_gate loanGateScenario "emergency_fund" "agent_a" (1/20) "survival"
    ⟨"agent_a", "QmA", [], "NORMAL", 1/10, 15, true, false, false⟩
    ⟨"emergency_fund", "Emergency Fund", 1/10, [("agent_alpha", 1/10)], []⟩
    rfl (by norm_num) rfl

/-! ## C10 — no reputation check for unregistered borrowers -/

open AgentCoordination in
/-- C10: for an agent id absent from the registry, `request_loan` on an
existing pool performs no reputation check: the loan is granted exactly
when the requested amount does not exceed the pool balance, in which case
the loan is appended and the balance debited. -/
theorem loan_unregistered_no_gate (st : Network) (pool_id agent_id : String)
    (amount : ℚ) (purpose : String) (pool : ResourcePool)
    (hA : lookupA agent_id st.agents = none)
    (hP : lookupA pool_id st.pools = some pool) :
    ((request_loan st pool_id agent_id amount purpose).1.isSome
        ↔ amount ≤ pool.total_balance)
  ∧ (amount ≤ pool.total_balance →
      request_loan st pool_id agent_id amount purpose =
        (some ⟨agent_id, amount, purpose, false⟩,
          { st with pools := (setA pool_id
              { pool with
                loans := pool.loans ++ [⟨agent_id, amount, purpose, false⟩]
                total_balance := pool.total_balance - amount } st.pools) })) := by
  rw [request_loan, hP, hA]
  by_cases hb : pool.total_balance < amount
  · constructor
    · simp [hb, not_le.mpr hb]
    · intro hle
      exact absurd hle (not_le.mpr hb)
  · constructor
    · simp [hb, not_lt.mp hb]
    · intro _
      simp [hb]

open AgentCoordination in
/-- Witness for C10: an unregistered agent id is granted a 0.05 loan from
a 0.1-balance pool with no reputation on record. -/
theorem loan_unregistered_no_gate_witness :
    ((request_loan unregisteredLoanScenario "emergency_fund" "ghost" (1/20) "x").1.isSome
        ↔ (1/20 : ℚ) ≤ 1/10)
  ∧ ((1/20 : ℚ) ≤ 1/10 →
      request_loan unregisteredLoanScenario "emergency_fund" "ghost" (1/20) "x" =
        (some ⟨"ghost", 1/20, "x", false⟩,
          { unregisteredLoanScenario with pools := (setA "emergency_fund"
              { pool_id := "emergency_fund", name := "Emergency Fund",
                total_balance := 1/10 - 1/20,
                contributors := [("agent_alpha", 1/10)],
                loans := [] ++ [⟨"ghost", 1/20, "x", false⟩] }
              unregisteredLoanScenario.pools) })) :=
  loan_unregistered_no_gate unregisteredLoanScenario "emergency_fund" "ghost" (1/20) "x"
    ⟨"emergency_fund", "Emergency Fund", 1/10, [("agent_alpha", 1/10)], []⟩
    rfl rfl

/-! ## C4 — micro-payment guardrail -/

open SpendingGuardrails in
/-- C4 counterexample: a micro amount (0.005 < 0.01) sent to a blacklisted
recipient is denied by `can_spend` even though the daily limit is not
exceeded and the emergency stop is off — so the claim's list of exceptions
is incomplete. -/
theorem micro_payment_blacklist_counterexample :
    (1/200 : ℚ) < MICRO_PAYMENT_MAX
  ∧ (SpendingConfig.mk 5 20 ["bad_actor"] false).emergency_stop = false
  ∧ (0 : ℚ) + 1/200 ≤ (SpendingConfig.mk 5 20 ["bad_actor"] false).daily_limit
  ∧ (can_spend ⟨5, 20, ["bad_actor"], false⟩ ⟨[], 0, 0, 0⟩ 100 (1/200)
      (some "bad_actor")).1.allowed = false
  ∧ (can_spend ⟨5, 20, ["bad_actor"], false⟩ ⟨[], 0, 0, 0⟩ 100 (1/200)
      (some "bad_actor")).1.requires_approval = true := by
  refine ⟨by norm_num [MICRO_PAYMENT_MAX], rfl, by norm_num, ?_, ?_⟩ <;>
  · rw [can_spend]
    norm_num [reset_if_needed, recipient_blocked, MICRO_PAYMENT_MAX]
    simp

open SpendingGuardrails in
/-- C4 (amended): for every amount below `MICRO_PAYMENT_MAX`, `can_spend`
returns `allowed` without approval, unless the (post-reset) daily total
plus the amount exceeds the daily limit, the emergency stop is set, or the
recipient is blacklisted. -/
theorem micro_payment_guardrail (cfg : SpendingConfig) (h : SpendingHistory)
    (now amount : ℚ) (recipient : Option String)
    (hMicro : amount < MICRO_PAYMENT_MAX)
    (hStop : cfg.emergency_stop = false)
    (hDaily : (reset_if_needed h now).daily_total + amount ≤ cfg.daily_limit)
    (hBlock : recipient_blocked cfg recipient = false) :
    (can_spend cfg h now amount recipient).1.allowed = true
  ∧ (can_spend cfg h now amount recipient).1.requires_approval = false := by
  have hd : ¬ cfg.daily_limit < (reset_if_needed h now).daily_total + amount :=
    not_lt.mpr hDaily
  rw [can_spend]
  simp [hStop, hBlock, hd, hMicro]

open SpendingGuardrails in
/-- Witness for C4 (amended): a $0.005 payment to a clean recipient under
a $5 daily limit is auto-approved. -/
theorem micro_payment_guardrail_witness :
    (can_spend ⟨5, 20, ["bad_actor"], false⟩ ⟨[], 0, 0, 0⟩ 100 (1/200)
      (some "shop")).1.allowed = true
  ∧ (can_spend ⟨5, 20, ["bad_actor"], false⟩ ⟨[], 0, 0, 0⟩ 100 (1/200)
      (some "shop")).1.requires_approval = false :=
  micro_payment_guardrail ⟨5, 20, ["bad_actor"], false⟩ ⟨[], 0, 0, 0⟩ 100 (1/200)
    (some "shop") (by norm_num [MICRO_PAYMENT_MAX])
    rfl (by norm_num [reset_if_needed]) (by simp [recipient_blocked])

/-! ## C5 — lazy spending-window reset -/

open SpendingGuardrails in
/-- C5 counterexample: with `last_reset = 0`, far more than 24 hours (and
more than 7 days) have elapsed at time 1000000, yet `record_spending`
performs no reset at all (the claim predicts a daily total of 1 and an
updated `last_reset`), and `can_spend` resets only the daily window — the
weekly total survives untouched. -/
theorem spending_window_reset_counterexample :
    (record_spending ⟨[], 5, 9, 0⟩ 1 "shop" "supplies").daily_total = 6
  ∧ (record_spending ⟨[], 5, 9, 0⟩ 1 "shop" "supplies").daily_total ≠ 1
  ∧ (record_spending ⟨[], 5, 9, 0⟩ 1 "shop" "supplies").weekly_total = 10
  ∧ (record_spending ⟨[], 5, 9, 0⟩ 1 "shop" "supplies").last_reset = 0
  ∧ (can_spend ⟨5, 20, [], false⟩ ⟨[], 5, 9, 0⟩ 1000000 (1/200) none).2.weekly_total = 9
  ∧ (can_spend ⟨5, 20, [], false⟩ ⟨[], 5, 9, 0⟩ 1000000 (1/200) none).2.weekly_total ≠ 0 := by
  have hcs : (can_spend ⟨5, 20, [], false⟩ ⟨[], 5, 9, 0⟩ 1000000 (1/200) none).2
      = reset_if_needed ⟨[], 5, 9, 0⟩ 1000000 := by
    rw [can_spend]
    split_ifs <;> rfl
  have hweek : (reset_if_needed (⟨[], 5, 9, 0⟩ : SpendingHistory) 1000000).weekly_total = 9 := by
    rw [reset_if_needed]
    split_ifs <;> rfl
  refine ⟨by norm_num [record_spending], by norm_num [record_spending],
    by norm_num [record_spending], rfl, ?_, ?_⟩
  · rw [hcs]
    exact hweek
  · rw [hcs, hweek]
    norm_num

open SpendingGuardrails in
/-- C5 (amended): the window reset is lazy and partial — `reset_if_needed`
(called by `can_spend`, whose returned history is exactly its result)
zeroes only the daily total and stamps `last_reset`, and only when STRICTLY
more than 86400 seconds have elapsed; `record_spending` never resets
anything: it leaves `last_reset` unchanged and adds the amount to both
totals.  The weekly total is never reset by any code path. -/
theorem lazy_window_reset (cfg : SpendingConfig) (h : SpendingHistory)
    (now amount a2 : ℚ) (recipient : Option String) (rec2 purpose : String) :
    (86400 < now - h.last_reset →
      reset_if_needed h now =
        { h with daily_total := 0, last_reset := now })
  ∧ (¬ 86400 < now - h.last_reset → reset_if_needed h now = h)
  ∧ (reset_if_needed h now).weekly_total = h.weekly_total
  ∧ (can_spend cfg h now amount recipient).2 = reset_if_needed h now
  ∧ (record_spending h a2 rec2 purpose).daily_total = h.daily_total + a2
  ∧ (record_spending h a2 rec2 purpose).weekly_total = h.weekly_total + a2
  ∧ (record_spending h a2 rec2 purpose).last_reset = h.last_reset := by
  refine ⟨?_, ?_, ?_, ?_, rfl, rfl, rfl⟩
  · intro hElapsed
    rw [reset_if_needed, if_pos hElapsed]
  · intro hElapsed
    rw [reset_if_needed, if_neg hElapsed]
  · rw [reset_if_needed]
    split_ifs <;> rfl
  · rw [can_spend]
    split_ifs <;> rfl

open SpendingGuardrails in
/-- Witness for C5 (amended) at a concrete history: 100000 seconds elapsed
triggers the daily reset. -/
theorem lazy_window_reset_witness :
    reset_if_needed ⟨[], 5, 9, 0⟩ 100000 =
      { transactions := ([] : List SpendRecord), daily_total := 0,
        weekly_total := 9, last_reset := 100000 } :=
  (lazy_window_reset ⟨5, 20, [], false⟩ ⟨[], 5, 9, 0⟩ 100000 (1/200) 1 none
    "shop" "supplies").1 (by norm_num)

/-! ## C8 — spawn reserve invariant -/

open AutoScaling in
/-- C8 counterexample: calling `spawn_child` with an explicit funding of 0
fails even though `balance - 0` is comfortably above the reserve — Python's
`funding or CHILD_FUNDING` silently replaces the falsy `0` by the 0.1
default, and 0.25 - 0.1 falls below the 0.2 reserve. -/
theorem spawn_child_zero_funding_counterexample :
    MIN_PARENT_RESERVE ≤ (1/4 : ℚ) - 0
  ∧ (spawn_child "parent_agent" "best" id 0 ⟨1/4, []⟩ (some 0)).1 = none
  ∧ (spawn_child "parent_agent" "best" id 0 ⟨1/4, []⟩ (some 0)).2 = ⟨1/4, []⟩ := by
  have heff : effective_funding (some 0) = CHILD_FUNDING := by
    rw [effective_funding]
    norm_num
  have hfail : (1/4 : ℚ) - CHILD_FUNDING < MIN_PARENT_RESERVE := by
    rw [CHILD_FUNDING, MIN_PARENT_RESERVE]
    norm_num
  refine ⟨by rw [MIN_PARENT_RESERVE]; norm_num, ?_, ?_⟩ <;>
  · rw [spawn_child, heff, if_pos hfail]

open AutoScaling in
/-- C8 (amended): `spawn_child` first replaces a `None` or zero funding
argument by `CHILD_FUNDING` (0.1); with the resulting effective funding
`f` it fails exactly when `balance - f < MIN_PARENT_RESERVE`, leaving the
parent unchanged; otherwise it debits the parent by exactly `f`, inherits
capabilities according to the configured policy, and creates a child with
status `gestating`. -/
theorem spawn_child_reserve (parent_id mode : String)
    (sample : List SoulCapability → List SoulCapability)
    (children_count : Nat) (parent_soul : ParentSoul) (funding : Option ℚ) :
    (parent_soul.current_balance - effective_funding funding < MIN_PARENT_RESERVE →
      spawn_child parent_id mode sample children_count parent_soul funding =
        (none, parent_soul))
  ∧ (MIN_PARENT_RESERVE ≤ parent_soul.current_balance - effective_funding funding →
      ∃ c : ChildAgent,
        spawn_child parent_id mode sample children_count parent_soul funding =
          (some c, { parent_soul with
            current_balance := parent_soul.current_balance - effective_funding funding })
        ∧ c.status = "gestating"
        ∧ c.initial_funding = effective_funding funding
        ∧ c.inherited_capabilities =
            select_inherited_capabilities mode sample parent_soul.capabilities) := by
  constructor
  · intro hfail
    rw [spawn_child, if_pos hfail]
  · intro hok
    rw [spawn_child, if_neg (not_lt.mpr hok)]
    exact ⟨_, rfl, rfl, rfl, rfl⟩

open AutoScaling in
/-- Witness for C8 (amended): funding 0.1 from a balance of 1 succeeds and
debits the parent to 0.9. -/
theorem spawn_child_reserve_witness :
    ∃ c : ChildAgent,
      spawn_child "parent_agent" "all" id 0 ⟨1, [⟨"coding", 5⟩]⟩ (some (1/10)) =
        (some c, { current_balance := (1 : ℚ) - effective_funding (some (1/10)),
                   capabilities := [⟨"coding", 5⟩] })
      ∧ c.status = "gestating"
      ∧ c.initial_funding = effective_funding (some (1/10))
      ∧ c.inherited_capabilities =
          select_inherited_capabilities "all" id [⟨"coding", 5⟩] :=
  (spawn_child_reserve "parent_agent" "all" id 0 ⟨1, [⟨"coding", 5⟩]⟩ (some (1/10))).2
    (by rw [MIN_PARENT_RESERVE, effective_funding]; norm_num)

/-! ## C7 — reputation idempotence and bounds -/

/-- `round(x, 2)` keeps values inside `[0, 100]`. -/
theorem pythonRound2_bounds (q : ℚ) (h0 : 0 ≤ q) (h100 : q ≤ 100) :
    0 ≤ ReputationEngine.pythonRound2 q ∧ ReputationEngine.pythonRound2 q ≤ 100 := by
  rw [ReputationEngine.pythonRound2]
  have hs0 : (0 : ℚ) ≤ q * 100 := by positivity
  have hs1 : q * 100 ≤ 10000 := by nlinarith
  have hf0 : (0 : ℤ) ≤ ⌊q * 100⌋ := Int.floor_nonneg.mpr hs0
  have hf1 : ⌊q * 100⌋ ≤ 10000 := by
    have h := Int.floor_le_floor hs1
    simpa using h
  have hfle : (⌊q * 100⌋ : ℚ) ≤ q * 100 := Int.floor_le _
  constructor
  · -- lower bound: the chosen integer is at least the floor, hence ≥ 0
    have : (0 : ℤ) ≤
        (if q * 100 - ⌊q * 100⌋ < 1/2 then ⌊q * 100⌋
         else if 1/2 < q * 100 - ⌊q * 100⌋ then ⌊q * 100⌋ + 1
         else if ⌊q * 100⌋ % 2 = 0 then ⌊q * 100⌋ else ⌊q * 100⌋ + 1) := by
      split_ifs <;> omega
    positivity
  · -- upper bound: when the fractional part reaches 1/2 the floor is ≤ 9999
    have key : ¬ (q * 100 - ⌊q * 100⌋ < 1/2) → ⌊q * 100⌋ + 1 ≤ 10000 := by
      intro hr
      have hr2 : (1 : ℚ)/2 ≤ q * 100 - ⌊q * 100⌋ := not_lt.mp hr
      have : (⌊q * 100⌋ : ℚ) < 10000 := by linarith
      have : ⌊q * 100⌋ < 10000 := by exact_mod_cast this
      omega
    have hn : (if q * 100 - ⌊q * 100⌋ < 1/2 then ⌊q * 100⌋
         else if 1/2 < q * 100 - ⌊q * 100⌋ then ⌊q * 100⌋ + 1
         else if ⌊q * 100⌋ % 2 = 0 then ⌊q * 100⌋ else ⌊q * 100⌋ + 1) ≤ 10000 := by
      split_ifs with h1 h2 h3
      · exact hf1
      · exact key h1
      · exact hf1
      · exact key h1
    have hnq : (((if q * 100 - ⌊q * 100⌋ < 1/2 then ⌊q * 100⌋
         else if 1/2 < q * 100 - ⌊q * 100⌋ then ⌊q * 100⌋ + 1
         else if ⌊q * 100⌋ % 2 = 0 then ⌊q * 100⌋ else ⌊q * 100⌋ + 1) : ℤ) : ℚ)
        ≤ ((10000 : ℤ) : ℚ) := by
      exact_mod_cast hn
    rw [Int.cast_ofNat] at hnq
    linarith

open ReputationEngine in
/-- C7: `calculate_reputation` is a pure function of the metrics — a second
call on unchanged metrics returns identical scores — and with non-negative
counters every component and the overall score lie in `[0, 100]`. -/
theorem reputation_idempotent_bounded (perf : PerformanceMetrics)
    (hc : 0 ≤ perf.tasks_completed) (hf : 0 ≤ perf.tasks_failed)
    (he : 0 ≤ perf.total_earnings) (hu : 0 ≤ perf.uptime_hours)
    (hcl : 0 ≤ perf.clones_created) (hch : 0 ≤ perf.children_survived) :
    calculate_reputation perf = calculate_reputation perf
  ∧ 0 ≤ (calculate_reputation perf).overall_score
  ∧ (calculate_reputation perf).overall_score ≤ 100 := by
  refine ⟨rfl, ?_⟩
  set R : ℚ := (if 0 < perf.tasks_completed + perf.tasks_failed then
      perf.tasks_completed / (perf.tasks_completed + perf.tasks_failed) * 100
    else 50) with hR
  set Q : ℚ := min 100 (perf.total_earnings / (1/10) * 100) with hQ
  set H : ℚ := min 100 (perf.clones_created * 10 + perf.children_survived * 5) with hH
  set L : ℚ := min 100 (perf.uptime_hours / 10) with hL
  have hscore : (calculate_reputation perf).overall_score =
      pythonRound2 (R * (3/10) + Q * (1/4) + 95 * (1/5) + H * (3/20) + L * (1/10)) := rfl
  have hRb : 0 ≤ R ∧ R ≤ 100 := by
    rw [hR]
    split_ifs with ht
    · have hle : perf.tasks_completed ≤ perf.tasks_completed + perf.tasks_failed := by
        linarith
      have h1 : perf.tasks_completed / (perf.tasks_completed + perf.tasks_failed) ≤ 1 :=
        (div_le_one ht).mpr hle
      have h2 : 0 ≤ perf.tasks_completed / (perf.tasks_completed + perf.tasks_failed) :=
        div_nonneg hc ht.le
      constructor
      · nlinarith
      · nlinarith
    · norm_num
  have hQb : 0 ≤ Q ∧ Q ≤ 100 := by
    rw [hQ]
    refine ⟨le_min (by norm_num) ?_, min_le_left _ _⟩
    have := div_nonneg he (by norm_num : (0:ℚ) ≤ 1/10)
    nlinarith
  have hHb : 0 ≤ H ∧ H ≤ 100 := by
    rw [hH]
    refine ⟨le_min (by norm_num) (by nlinarith), min_le_left _ _⟩
  have hLb : 0 ≤ L ∧ L ≤ 100 := by
    rw [hL]
    refine ⟨le_min (by norm_num) (div_nonneg hu (by norm_num)), min_le_left _ _⟩
  rw [hscore]
  exact pythonRound2_bounds _ (by nlinarith [hRb.1, hQb.1, hHb.1, hLb.1])
    (by nlinarith [hRb.2, hQb.2, hHb.2, hLb.2, hRb.1, hQb.1, hHb.1, hLb.1])

open ReputationEngine in
/-- Witness for C7 at concrete metrics (8 completed / 2 failed tasks,
0.05 earnings, 250 uptime hours, 2 clones, 3 surviving children). -/
theorem reputation_idempotent_bounded_witness :
    calculate_reputation ⟨8, 2, 1/20, 0, 0, 250, 3, 4, 2, 3⟩ =
      calculate_reputation ⟨8, 2, 1/20, 0, 0, 250, 3, 4, 2, 3⟩
  ∧ 0 ≤ (calculate_reputation ⟨8, 2, 1/20, 0, 0, 250, 3, 4, 2, 3⟩).overall_score
  ∧ (calculate_reputation ⟨8, 2, 1/20, 0, 0, 250, 3, 4, 2, 3⟩).overall_score ≤ 100 :=
  reputation_idempotent_bounded ⟨8, 2, 1/20, 0, 0, 250, 3, 4, 2, 3⟩
    (by norm_num) (by norm_num) (by norm_num) (by norm_num) (by norm_num) (by norm_num)

/-! ## C9 — backup round-trip -/

open IPFSStorage in
/-- C9: for every soul record, `backup_soul` records a `BackupRecord` whose
`hash` is the sha256 of the sort-keys serialization, and
`restore_from_backup` on the returned CID yields content with exactly that
hash.  Stated for every hash function and every pair of serializers, in
the default simulation storage mode. -/
theorem backup_restore_round_trip (sha256hex : String → String)
    (dumpsIndent dumpsSorted : Json → String) (cache : IPFSCache)
    (st : OnChainState) (soul_data : Json) (backup_type : String) :
    ∃ record : BackupRecord,
      (backup_soul sha256hex dumpsIndent dumpsSorted cache st soul_data
          backup_type).state.backup_history.getLast? = some record
    ∧ record.cid = (backup_soul sha256hex dumpsIndent dumpsSorted cache st soul_data
          backup_type).cid
    ∧ record.hash = sha256hex (dumpsSorted soul_data)
    ∧ ∃ data : Json,
        restore_from_backup
          (backup_soul sha256hex dumpsIndent dumpsSorted cache st soul_data
            backup_type).cache
          (backup_soul sha256hex dumpsIndent dumpsSorted cache st soul_data
            backup_type).state
          (some (backup_soul sha256hex dumpsIndent dumpsSorted cache st soul_data
            backup_type).cid) = some data
      ∧ sha256hex (dumpsSorted data) = record.hash := by
  refine ⟨⟨calculate_hash sha256hex (dumpsIndent soul_data),
    sha256hex (dumpsSorted soul_data), backup_type⟩, ?_, ?_, rfl, soul_data, ?_, rfl⟩
  · simp only [backup_soul, upload_to_ipfs]
    rw [List.getLast?_concat]
  · simp only [backup_soul, upload_to_ipfs]
  · simp only [backup_soul, upload_to_ipfs, restore_from_backup, retrieve_from_ipfs]
    exact lookupA_setA_self _ _ _

/-! ## C1 — pool solvency invariant -/

open AgentCoordination in
/-- A contribution preserves non-negativity of a pool's balance when the
contributed amount is non-negative. -/
theorem contribute_preserves_nonneg (pid : String) (st : Network)
    (p a : String) (amt : ℚ) (hamt : 0 ≤ amt)
    (hinv : poolBalanceNonneg pid st) :
    poolBalanceNonneg pid (contribute_to_pool st p a amt).2 := by
  rw [contribute_to_pool]
  cases hl : lookupA p st.pools with
  | none =>
    exact hinv
  | some pool =>
    dsimp only
    intro q hq
    by_cases hpp : p = pid
    · subst hpp
      rw [lookupA_setA_self] at hq
      injection hq with hq
      subst hq
      have h0 := hinv pool hl
      dsimp only
      linarith
    · rw [lookupA_setA_ne _ hpp] at hq
      exact hinv q hq

open AgentCoordination in
/-- A loan request preserves non-negativity of a pool's balance
unconditionally: a loan is only granted when the amount is covered. -/
theorem request_loan_preserves_nonneg (pid : String) (st : Network)
    (p a : String) (amt : ℚ) (pur : String)
    (hinv : poolBalanceNonneg pid st) :
    poolBalanceNonneg pid (request_loan st p a amt pur).2 := by
  rw [request_loan]
  cases hl : lookupA p st.pools with
  | none =>
    exact hinv
  | some pool =>
    dsimp only
    split_ifs with h1 h2
    · exact hinv
    · exact hinv
    · intro q hq
      by_cases hpp : p = pid
      · subst hpp
        rw [lookupA_setA_self] at hq
        injection hq with hq
        subst hq
        dsimp only
        have := not_lt.mp h2
        linarith
      · rw [lookupA_setA_ne _ hpp] at hq
        exact hinv q hq

open AgentCoordination in
/-- A freshly created pool with non-negative initial contribution
satisfies the solvency invariant. -/
theorem create_pool_nonneg (st0 : Network) (pid nm cr : String) (init : ℚ)
    (hinit : 0 ≤ init) :
    poolBalanceNonneg pid (create_resource_pool st0 pid nm cr init) := by
  intro q hq
  rw [create_resource_pool] at hq
  dsimp only at hq
  rw [lookupA_setA_self] at hq
  injection hq with hq
  subst hq
  exact hinit

open AgentCoordination in
/-- Running any sequence of pool operations whose contributions are
non-negative preserves the solvency invariant. -/
theorem runOps_preserves_nonneg (pid : String) (ops : List PoolOp) :
    ∀ st : Network, (∀ op ∈ ops, op.contribNonneg = true) →
      poolBalanceNonneg pid st → poolBalanceNonneg pid (runOps st ops) := by
  induction ops with
  | nil =>
    intro st _ hinv
    exact hinv
  | cons op rest ih =>
    intro st hops hinv
    show poolBalanceNonneg pid (runOps (applyOp st op) rest)
    apply ih
    · intro o ho
      exact hops o (List.mem_cons_of_mem _ ho)
    · cases op with
      | contribute p a amt =>
        have hnn := hops _ (List.mem_cons_self _ _)
        rw [PoolOp.contribNonneg] at hnn
        exact contribute_preserves_nonneg pid st p a amt (of_decide_eq_true hnn) hinv
      | loan p a amt pur =>
        exact request_loan_preserves_nonneg pid st p a amt pur hinv

open AgentCoordination in
/-- C1: starting from `create_resource_pool` with a non-negative initial
contribution, after any prefix of a sequence of `contribute_to_pool` calls
with non-negative amounts and arbitrary `request_loan` calls, the created
pool's balance is never negative; moreover any granted loan satisfies
`amount ≤ total_balance` at the time of the request. -/
theorem pool_solvency :
    (∀ (st0 : Network) (pid nm creator : String) (init : ℚ) (ops : List PoolOp),
      0 ≤ init →
      (∀ op ∈ ops, op.contribNonneg = true) →
      ∀ (n : Nat) (p : ResourcePool),
        lookupA pid (runOps (create_resource_pool st0 pid nm creator init)
          (ops.take n)).pools = some p →
        0 ≤ p.total_balance)
  ∧ (∀ (st : Network) (pid agent_id : String) (amt : ℚ) (purpose : String)
        (loan : Loan),
      (request_loan st pid agent_id amt purpose).1 = some loan →
      ∃ p : ResourcePool, lookupA pid st.pools = some p ∧ amt ≤ p.total_balance) := by
  constructor
  · intro st0 pid nm creator init ops hinit hops n p hp
    exact runOps_preserves_nonneg pid (ops.take n)
      (create_resource_pool st0 pid nm creator init)
      (fun op ho => hops op (List.take_subset n ops ho))
      (create_pool_nonneg st0 pid nm creator init hinit) p hp
  · intro st pid agent_id amt purpose loan hl
    rw [request_loan] at hl
    cases hp : lookupA pid st.pools with
    | none =>
      rw [hp] at hl
      exact absurd hl (by simp)
    | some pool =>
      rw [hp] at hl
      dsimp only at hl
      split_ifs at hl with h1 h2
      exact ⟨pool, rfl, not_lt.mp h2⟩

open AgentCoordination in
/-- Witness for C1: a fresh pool created with initial contribution 1,
followed by a contribution and a loan request, at prefix length 0. -/
theorem pool_solvency_witness :
    (0 : ℚ) ≤ (ResourcePool.mk "p" "Pool" 1 [("creator", 1)] []).total_balance :=
  pool_solvency.1 ⟨[], [], []⟩ "p" "Pool" "creator" 1
    [.contribute "p" "helper" 1, .loan "p" "borrower" 1 "survival"]
    (by norm_num)
    (by
      intro op ho
      fin_cases ho <;> norm_num [PoolOp.contribNonneg])
    0 ⟨"p", "Pool", 1, [("creator", 1)], []⟩ rfl

/-! ## C6 — mutual aid matching -/

/-- Specification of the fold underlying `pyMax`: either the accumulator
survives (every key is at most its key), or the result is the first
element that strictly improves on everything before it. -/
theorem pyFold_spec {α : Type} (key : α → ℚ) :
    ∀ (xs : List α) (b : α),
      (List.foldl (fun best y => if key best < key y then y else best) b xs = b
        ∧ ∀ y ∈ xs, key y ≤ key b)
    ∨ (∃ l₁ z l₂, xs = l₁ ++ z :: l₂
        ∧ List.foldl (fun best y => if key best < key y then y else best) b xs = z
        ∧ key b < key z
        ∧ (∀ y ∈ l₁, key y < key z)
        ∧ (∀ y ∈ l₂, key y ≤ key z)) := by
  intro xs
  induction xs with
  | nil =>
    intro b
    left
    exact ⟨rfl, by simp⟩
  | cons x rest ih =>
    intro b
    rw [List.foldl_cons]
    by_cases hx : key b < key x
    · rw [if_pos hx]
      rcases ih x with ⟨heq, hub⟩ | ⟨l₁, z, l₂, hsplit, heq, hlt, hl₁, hl₂⟩
      · right
        exact ⟨[], x, rest, rfl, heq, hx, by simp, hub⟩
      · right
        refine ⟨x :: l₁, z, l₂, by rw [hsplit, List.cons_append], heq, lt_trans hx hlt, ?_, hl₂⟩
        intro y hy
        rcases List.mem_cons.mp hy with hy | hy
        · subst hy
          exact hlt
        · exact hl₁ y hy
    · rw [if_neg hx]
      rcases ih b with ⟨heq, hub⟩ | ⟨l₁, z, l₂, hsplit, heq, hlt, hl₁, hl₂⟩
      · left
        refine ⟨heq, ?_⟩
        intro y hy
        rcases List.mem_cons.mp hy with hy | hy
        · subst hy
          exact not_lt.mp hx
        · exact hub y hy
      · right
        refine ⟨x :: l₁, z, l₂, by rw [hsplit, List.cons_append], heq, hlt, ?_, hl₂⟩
        intro y hy
        rcases List.mem_cons.mp hy with hy | hy
        · subst hy
          exact lt_of_le_of_lt (not_lt.mp hx) hlt
        · exact hl₁ y hy

open AgentCoordination in
/-- `pyMax` returns the first element attaining the maximum key: the list
splits around the winner, with everything before it strictly below and
everything after it at most its key. -/
theorem pyMax_spec {α : Type} (key : α → ℚ) (l : List α) (b : α)
    (h : pyMax key l = some b) :
    ∃ l₁ l₂, l = l₁ ++ b :: l₂
      ∧ (∀ y ∈ l₁, key y < key b)
      ∧ (∀ y ∈ l₂, key y ≤ key b) := by
  cases l with
  | nil =>
    exact absurd h (by rw [pyMax]; simp)
  | cons x xs =>
    rw [pyMax] at h
    injection h with h
    rcases pyFold_spec key xs x with ⟨heq, hub⟩ | ⟨l₁, z, l₂, hsplit, heq, hlt, hl₁, hl₂⟩
    · rw [heq] at h
      subst h
      exact ⟨[], xs, rfl, by simp, hub⟩
    · rw [heq] at h
      subst h
      refine ⟨x :: l₁, l₂, by rw [hsplit, List.cons_append], ?_, hl₂⟩
      intro y hy
      rcases List.mem_cons.mp hy with hy | hy
      · subst hy
        exact hlt
      · exact hl₁ y hy

open AgentCoordination in
/-- `pyMax` on a non-empty list always yields a value. -/
theorem pyMax_isSome {α : Type} (key : α → ℚ) (l : List α) (hne : l ≠ []) :
    ∃ b, pyMax key l = some b := by
  cases l with
  | nil => exact absurd rfl hne
  | cons x xs => exact ⟨_, rfl⟩

/-- Updating one value in place with a projection-preserving function does
not change a filtered projection of the values. -/
theorem filter_map_updateA {α β : Type} (k : String) (f : α → α)
    (p : α → Bool) (g : α → β)
    (hp : ∀ x, p (f x) = p x) (hg : ∀ x, g (f x) = g x) :
    ∀ l : List (String × α),
      (((updateA k f l).map Prod.snd).filter p).map g =
        ((l.map Prod.snd).filter p).map g := by
  intro l
  induction l with
  | nil => rfl
  | cons hd tl ih =>
    obtain ⟨k', v⟩ := hd
    by_cases h : k' = k
    · simp only [updateA, if_pos h, List.map_cons, List.filter_cons, hp v]
      cases hpv : p v
      · simp
      · simp [hg v]
    · simp only [updateA, if_neg h, List.map_cons, List.filter_cons]
      cases hpv : p v
      · simpa using ih
      · simpa using ih

open AgentCoordination in
/-- `offer_help` rewrites only the messages list and the helper's
reputation; the helper id list computed from tiers and help flags is
untouched. -/
theorem helper_ids_offer_help (st : Network) (a t ot : String) (amt : ℚ) :
    helper_ids (offer_help st a t ot amt) = helper_ids st := by
  rw [helper_ids, helper_ids]
  exact filter_map_updateA a
    (fun x => { x with reputation := min 100 (x.reputation + 1) })
    (fun x => x.offers_help && (x.tier == "NORMAL" || x.tier == "THRIVING"))
    (fun x => x.agent_id) (fun x => rfl) (fun x => rfl) st.agents

open AgentCoordination in
/-- `offer_help` does not change any agent's balance. -/
theorem balance_of_offer_help (st : Network) (a t ot : String) (amt : ℚ)
    (h : String) :
    balance_of (offer_help st a t ot amt) h = balance_of st h := by
  rw [balance_of, balance_of]
  exact congrArg (fun o => Option.getD o 0)
    (lookupA_updateA_proj AgentProfile.balance
      (fun x => { x with reputation := min 100 (x.reputation + 1) })
      (fun x => rfl) h a st.agents)

open AgentCoordination in
/-- `offer_help` does not change the available-helper list. -/
theorem available_helpers_offer_help (st : Network) (a t ot : String)
    (amt : ℚ) (helpers : List String) :
    available_helpers (offer_help st a t ot amt) helpers =
      available_helpers st helpers := by
  rw [available_helpers, available_helpers]
  apply List.filter_congr
  intro h _
  rw [balance_of_offer_help]

open AgentCoordination in
/-- `offer_help` appends exactly one offer message (as long as the
1000-message cap is not hit). -/
theorem offer_help_messages (st : Network) (a t ot : String) (amt : ℚ)
    (hlen : st.messages.length ≤ 999) :
    (offer_help st a t ot amt).messages =
      st.messages ++ [⟨a, t, "offer", ot, amt⟩] := by
  rw [offer_help, send_message]
  dsimp only
  rw [if_neg]
  simp only [List.length_append, List.length_cons, List.length_nil]
  omega

open AgentCoordination in
/-- With no available helper the matching step does nothing. -/
theorem aid_match_step_none (st : Network) (helpers : List String)
    (need_id : String) (h : available_helpers st helpers = []) :
    aid_match_step st helpers need_id = (none, st) := by
  rw [aid_match_step, h]
  rfl

open AgentCoordination in
/-- With at least one available helper the matching step picks the `pyMax`
helper and sends it an offer. -/
theorem aid_match_step_some (st : Network) (helpers : List String)
    (need_id : String) (hne : available_helpers st helpers ≠ []) :
    ∃ best,
      pyMax (reputation_of st) (available_helpers st helpers) = some best
      ∧ aid_match_step st helpers need_id =
          (some best, offer_help st best need_id "funding" (1/100)) := by
  obtain ⟨b, hb⟩ := pyMax_isSome (reputation_of st) _ hne
  refine ⟨b, hb, ?_⟩
  rw [aid_match_step, hb]

open AgentCoordination in
/-- With no available helper, a whole round leaves the state unchanged and
makes zero matches. -/
theorem aid_fold_empty (helpers : List String) :
    ∀ (needy : List AgentProfile) (st : Network) (c : Nat),
      available_helpers st helpers = [] →
      List.foldl (aid_fold_step helpers) (c, st) needy = (c, st) := by
  intro needy
  induction needy with
  | nil =>
    intro st c _
    rfl
  | cons nd rest ih =>
    intro st c h
    rw [List.foldl_cons]
    have hfs : aid_fold_step helpers (c, st) nd = (c, st) := by
      dsimp only [aid_fold_step]
      rw [aid_match_step_none st helpers nd.agent_id h]
    rw [hfs]
    exact ih st c h

open AgentCoordination in
/-- With at least one available helper, every needy agent is matched: the
fold increments the counter once per needy agent. -/
theorem aid_fold_count (helpers : List String) :
    ∀ (needy : List AgentProfile) (st : Network) (c : Nat),
      available_helpers st helpers ≠ [] →
      (List.foldl (aid_fold_step helpers) (c, st) needy).1 = c + needy.length := by
  intro needy
  induction needy with
  | nil =>
    intro st c _
    simp
  | cons nd rest ih =>
    intro st c h
    obtain ⟨best, hmax, hstep⟩ := aid_match_step_some st helpers nd.agent_id h
    rw [List.foldl_cons]
    have hfs : aid_fold_step helpers (c, st) nd =
        (c + 1, offer_help st best nd.agent_id "funding" (1/100)) := by
      dsimp only [aid_fold_step]
      rw [hstep]
    rw [hfs]
    have h2 : available_helpers
        (offer_help st best nd.agent_id "funding" (1/100)) helpers ≠ [] := by
      rw [available_helpers_offer_help]
      exact h
    rw [ih _ _ h2]
    simp only [List.length_cons]
    omega

open AgentCoordination in
/-- C6: in one mutual-aid round, (no helpers) nothing happens;
(some helper) every active CRITICAL seeking agent is matched and the round
returns the number of matches; each match goes to the `pyMax` helper — an
available helper all of whose predecessors in registration order have
strictly smaller reputation and all of whose successors have at most its
reputation (so the highest-reputation helper, first on ties), and emits
exactly one offer message; in the concrete spec scenario with one needy
agent and helpers of reputation 40 and 70, exactly one match is made, to
the reputation-70 helper. -/
theorem mutual_aid_matching :
    (∀ st : Network, available_helpers st (helper_ids st) = [] →
      run_mutual_aid_round st = (0, st))
  ∧ (∀ st : Network, available_helpers st (helper_ids st) ≠ [] →
      (run_mutual_aid_round st).1 = (find_agents_needing_help st).length)
  ∧ (∀ (st : Network) (helpers : List String) (need_id best : String),
      (aid_match_step st helpers need_id).1 = some best →
      (aid_match_step st helpers need_id).2 =
          offer_help st best need_id "funding" (1/100)
      ∧ (st.messages.length ≤ 999 →
          (aid_match_step st helpers need_id).2.messages =
            st.messages ++ [⟨best, need_id, "offer", "funding", 1/100⟩])
      ∧ ∃ l₁ l₂, available_helpers st helpers = l₁ ++ best :: l₂
          ∧ (∀ y ∈ l₁, reputation_of st y < reputation_of st best)
          ∧ (∀ y ∈ l₂, reputation_of st y ≤ reputation_of st best))
  ∧ (run_mutual_aid_round aidScenario).1 = 1
  ∧ (run_mutual_aid_round aidScenario).2.messages =
      [⟨"agent_h70", "agent_needy", "offer", "funding", 1/100⟩] := by
  have hrun_empty : ∀ st : Network, available_helpers st (helper_ids st) = [] →
      run_mutual_aid_round st = (0, st) := by
    intro st h
    rw [run_mutual_aid_round]
    exact aid_fold_empty (helper_ids st) (find_agents_needing_help st) st 0 h
  have hrun_count : ∀ st : Network, available_helpers st (helper_ids st) ≠ [] →
      (run_mutual_aid_round st).1 = (find_agents_needing_help st).length := by
    intro st h
    rw [run_mutual_aid_round]
    rw [aid_fold_count (helper_ids st) (find_agents_needing_help st) st 0 h]
    omega
  have hstep_char : ∀ (st : Network) (helpers : List String) (need_id best : String),
      (aid_match_step st helpers need_id).1 = some best →
      (aid_match_step st helpers need_id).2 =
          offer_help st best need_id "funding" (1/100)
      ∧ (st.messages.length ≤ 999 →
          (aid_match_step st helpers need_id).2.messages =
            st.messages ++ [⟨best, need_id, "offer", "funding", 1/100⟩])
      ∧ ∃ l₁ l₂, available_helpers st helpers = l₁ ++ best :: l₂
          ∧ (∀ y ∈ l₁, reputation_of st y < reputation_of st best)
          ∧ (∀ y ∈ l₂, reputation_of st y ≤ reputation_of st best) := by
    intro st helpers need_id best hb
    by_cases hne : available_helpers st helpers = []
    · rw [aid_match_step_none st helpers need_id hne] at hb
      exact absurd hb (by simp)
    · obtain ⟨b, hmax, hstep⟩ := aid_match_step_some st helpers need_id hne
      rw [hstep] at hb
      injection hb with hb
      subst hb
      refine ⟨by rw [hstep], ?_, ?_⟩
      · intro hlen
        rw [hstep]
        exact offer_help_messages st b need_id "funding" (1/100) hlen
      · exact pyMax_spec (reputation_of st) _ b hmax
  have hb40 : balance_of aidScenario "agent_h40" = 1/10 := rfl
  have hb70 : balance_of aidScenario "agent_h70" = 1/2 := rfl
  have h3 : available_helpers aidScenario ["agent_h40", "agent_h70"] =
      ["agent_h40", "agent_h70"] := by
    simp only [available_helpers, List.filter_cons, List.filter_nil, hb40, hb70]
    norm_num
  have hr40 : reputation_of aidScenario "agent_h40" = 40 := rfl
  have hr70 : reputation_of aidScenario "agent_h70" = 70 := rfl
  have h6 : pyMax (reputation_of aidScenario) ["agent_h40", "agent_h70"] =
      some "agent_h70" := by
    rw [pyMax, List.foldl_cons, List.foldl_nil]
    rw [hr40, hr70, if_pos (by norm_num : (40:ℚ) < 70)]
  have h7 : aid_match_step aidScenario ["agent_h40", "agent_h70"] "agent_needy" =
      (some "agent_h70",
        offer_help aidScenario "agent_h70" "agent_needy" "funding" (1/100)) := by
    rw [aid_match_step, h3, h6]
  have hrun : run_mutual_aid_round aidScenario =
      (1, offer_help aidScenario "agent_h70" "agent_needy" "funding" (1/100)) := by
    rw [run_mutual_aid_round]
    have hneedy : find_agents_needing_help aidScenario =
        [⟨"agent_needy", "QmN", ["coding"], "CRITICAL", 1/2000, 40, true, false, true⟩] :=
      rfl
    have hhelp : helper_ids aidScenario = ["agent_h40", "agent_h70"] := rfl
    rw [hneedy, hhelp, List.foldl_cons, List.foldl_nil]
    dsimp only [aid_fold_step]
    rw [h7]
  exact ⟨hrun_empty, hrun_count, hstep_char, by rw [hrun], by rw [hrun]; rfl⟩

open AgentCoordination in
/-- Witness for C6: in the spec scenario the round matches exactly the one
needy agent. -/
theorem mutual_aid_matching_witness :
    (run_mutual_aid_round aidScenario).1 =
      (find_agents_needing_help aidScenario).length :=
  mutual_aid_matching.2.1 aidScenario (by
    have hb40 : balance_of aidScenario "agent_h40" = 1/10 := rfl
    have hb70 : balance_of aidScenario "agent_h70" = 1/2 := rfl
    have hh : helper_ids aidScenario = ["agent_h40", "agent_h70"] := rfl
    rw [hh]
    simp only [available_helpers, List.filter_cons, List.filter_nil, hb40, hb70]
    norm_num
    simp)
